import Mathlib

/-!
# Verification of the AgenticIntelligence crawler and pipeline core

Shallow embedding of the core of the repository:

* `agents/agent_scraper.py` — the two source crawlers (`scrape_breakout`,
  `scrape_rastah`), their shared discovery / retry / visited-set logic, and
  the crawl coordinator (`scrape_all_products`);
* `agents/langgraph_flow.py` — the pipeline state record, the stage
  functions and the routing function `route_next`;
* `agents/agent_analysis.py` — `load_csv_products`, `analyze_products`,
  `run_deep_analysis`;
* `agents/report_generator.py` — `generate_report`;
* `agents/qa_chatbot.py` — the `answer_question` closure.

External effects (Playwright page navigation, the filesystem, the hosted
LLM) are modelled as explicit environment records; Python exceptions are
modelled with `Except`.
-/

namespace AgenticIntelligence

/-- One product record, `[title_text, price_text, desc_text, source]` as
appended to `products_data` in `agent_scraper.py`. -/
structure Record where
  title : String
  price : String
  desc : String
  source : String
deriving Repr, DecidableEq

/-! ## Crawl coordinator (`scrape_all_products`, agent_scraper.py:207-252) -/

/-- `per_source = math.ceil(total_products / 2)` (agent_scraper.py:214),
on naturals: the ceiling of `total_products / 2` is `(total_products + 1) / 2`. -/
def per_source (total_products : Nat) : Nat :=
  (total_products + 1) / 2

/-- The value returned by `scrape_all_products` (agent_scraper.py:239-249),
minus the file paths. -/
structure ScrapeAllResult where
  total_scraped : Nat
  breakout_count : Nat
  rastah_count : Nat
  data : List Record
deriving Repr, DecidableEq

/-- The combination step of `scrape_all_products` (agent_scraper.py:224-249):
given the two awaited crawler outputs, `all_data = breakout_data + rastah_data`
and `final_data = all_data[:total_products]`. -/
def scrape_all_products (breakout_data rastah_data : List Record)
    (total_products : Nat) : ScrapeAllResult :=
  let all_data := breakout_data ++ rastah_data
  let final_data := all_data.take total_products
  { total_scraped := final_data.length
    breakout_count := breakout_data.length
    rastah_count := rastah_data.length
    data := final_data }

/-! ## Pipeline state and routing (`langgraph_flow.py`) -/

/-- The `scraped_data` mapping, `{"breakout": ..., "rastah": ...}`
(langgraph_flow.py:51-54): rows are lists of cell strings. -/
structure ScrapedData where
  breakout : List (List String)
  rastah : List (List String)
deriving Repr, DecidableEq

/-- `PipelineState` (langgraph_flow.py:19-30).  `Option` fields model keys
that may be absent or `None`; `scraped_data = none` also models the empty
dict `{}` used at initialisation (main.py), which is falsy exactly like a
missing key.  `messages`, `progress_log` and the inputs are kept for
completeness. -/
structure PipelineState where
  question : String
  max_products : Nat
  headless : Bool
  scraped_data : Option ScrapedData
  analysis_results : Option String
  report : Option String
  messages : List String
  progress_status : String
  progress_log : List String
  status : String
  error : Option String

/-- Python truthiness of an optional string: `None` and `""` are falsy,
every other string is truthy. -/
def truthyStr : Option String → Bool
  | none => false
  | some s => !(s == "")

/-- `route_next` (langgraph_flow.py:175-184).  `state.get("error")` etc. are
Python truthiness tests: a `Dict` is truthy iff non-empty (and the code only
ever stores the two-key dict), a string iff non-empty. -/
def route_next (state : PipelineState) : String :=
  if truthyStr state.error then "end"
  else if !state.scraped_data.isSome then "scraper"
  else if !truthyStr state.analysis_results then "analyzer"
  else if !truthyStr state.report then "report"
  else "end"

/-- The per-source quota passed by the pipeline Scrape stage
(langgraph_flow.py:62-63): `state["max_products"] // 2` for each of
`scrape_breakout` and `scrape_rastah` — floor division. -/
def scraper_agent_per_source (max_products : Nat) : Nat :=
  max_products / 2

/-! ## Source crawlers (`scrape_breakout` agent_scraper.py:47-125,
`scrape_rastah` agent_scraper.py:127-205)

The two crawler functions are textually identical up to the listing
selectors, the URL prefix used to absolutize relative hrefs, the source
label, and the visited-URL file name, so they are embedded as one function
`scrapeSource` over a `SourceConfig` holding those constants.  Playwright
and the filesystem are modelled by a `CrawlEnv`:

* `loadResult` — the outcome of `load_scraped_urls` (line 48).  This call
  sits before the `try` block, so a raised exception there propagates.
* `pages` — the listing pages reached by the pagination loop, each page
  being the `get_attribute` results of its matched links (`none` models a
  link without an href, skipped by the `if href:` test, as is `""`).
  Advancing past the last element models the next button being absent or
  disabled.
* `outcome url i` — the result of attempt number `i` (0-based) of the
  item-extraction `try` body for `url`: success with the three extracted
  texts, a `PlaywrightTimeoutError`, or any other exception.
* `sessionAbort = some k` — an exception escaping the `async with` session
  after `k` items of the extraction loop have been handled (k = 0 also
  covers launch/goto/discovery failures); it is caught by the handler at
  line 121, and the mutations of `products_data` and `scraped_urls` made
  before it remain.
* `saveError` — an exception raised by `save_scraped_urls` (line 124),
  which sits after the `try` block and therefore propagates.
-/

/-- Result of one attempt of the per-item extraction body
(agent_scraper.py:92-114): success carries the three texts already passed
through `get_text_content` (missing fields arrive as "N/A"). -/
inductive AttemptResult where
  | success (title price desc : String)
  | timeout
  | pageError

/-- The per-source constants distinguishing `scrape_breakout` from
`scrape_rastah`. -/
structure SourceConfig where
  baseUrl : String
  sourceName : String

/-- Constants of `scrape_breakout` (agent_scraper.py:71,105). -/
def breakoutConfig : SourceConfig :=
  { baseUrl := "https://breakout.com.pk", sourceName := "Breakout" }

/-- Constants of `scrape_rastah` (agent_scraper.py:151,185). -/
def rastahConfig : SourceConfig :=
  { baseUrl := "https://pk.rastah.co", sourceName := "Rastah" }

/-- External behaviour of one crawler invocation; see the section comment. -/
structure CrawlEnv where
  loadResult : Except String (List String)
  pages : List (List (Option String))
  outcome : String → Nat → AttemptResult
  sessionAbort : Option Nat
  saveError : Option String

/-- Href absolutization (agent_scraper.py:70-71): a relative href gets the
source host prefixed. -/
def normalizeUrl (base href : String) : String :=
  if href.startsWith "http" then href else base ++ href

/-- Inner `for link in links` loop of the discovery phase
(agent_scraper.py:67-75): append each fresh normalized href that is in
neither `product_urls` (the accumulator) nor `scraped_urls` (the loaded
visited set), breaking out as soon as `max_products` URLs are held. -/
def collectLinks (max_products : Nat) (scraped_urls : List String)
    (base : String) : List (Option String) → List String → List String
  | [], product_urls => product_urls
  | none :: rest, product_urls =>
      collectLinks max_products scraped_urls base rest product_urls
  | some href :: rest, product_urls =>
      if href = "" then collectLinks max_products scraped_urls base rest product_urls
      else
        let h := normalizeUrl base href
        if h ∉ product_urls ∧ h ∉ scraped_urls then
          if max_products ≤ (product_urls ++ [h]).length then product_urls ++ [h]
          else collectLinks max_products scraped_urls base rest (product_urls ++ [h])
        else collectLinks max_products scraped_urls base rest product_urls

/-- Pagination `while len(product_urls) < max_products` loop
(agent_scraper.py:63-87): scan the current listing page, stop when the
quota is reached or no further page exists. -/
def discoverUrls (max_products : Nat) (scraped_urls : List String)
    (base : String) : List (List (Option String)) → List String → List String
  | [], product_urls => product_urls
  | page :: rest, product_urls =>
      if product_urls.length < max_products then
        let product_urls' := collectLinks max_products scraped_urls base page product_urls
        if max_products ≤ product_urls'.length then product_urls'
        else discoverUrls max_products scraped_urls base rest product_urls'
      else product_urls

/-- `for attempt in range(2)` (agent_scraper.py:91). -/
def retry_budget : Nat := 2

/-- The bounded retry loop over one URL (agent_scraper.py:91-116): a
successful attempt yields the Record and breaks; a timeout retries with the
next attempt index; any other exception abandons the URL; an exhausted
budget (`for`-`else`) abandons it likewise. -/
def tryExtract (outcome : String → Nat → AttemptResult)
    (source_name url : String) : Nat → Nat → Option Record
  | 0, _ => none
  | Nat.succ k, idx =>
      match outcome url idx with
      | .success t p d => some { title := t, price := p, desc := d, source := source_name }
      | .timeout => tryExtract outcome source_name url k (idx + 1)
      | .pageError => none

/-- `scraped_urls.add(url)` (agent_scraper.py:106): set insertion. -/
def insertUrl (visited : List String) (url : String) : List String :=
  if url ∈ visited then visited else visited ++ [url]

/-- The item-extraction loop (agent_scraper.py:90-117) over the processed
URLs, threading `products_data` and `scraped_urls`.  Each emitted record is
kept paired with the item URL it was extracted from (the Python list holds
only the records; the pairing makes the provenance explicit). -/
def extractAll (outcome : String → Nat → AttemptResult) (source_name : String) :
    List String → List (String × Record) → List String →
      List (String × Record) × List String
  | [], pairs, visited => (pairs, visited)
  | url :: rest, pairs, visited =>
      match tryExtract outcome source_name url retry_budget 0 with
      | some r => extractAll outcome source_name rest (pairs ++ [(url, r)]) (insertUrl visited url)
      | none => extractAll outcome source_name rest pairs visited

/-- The URLs actually handled by the extraction loop: the discovered list,
sliced by `product_urls[:max_products]` (agent_scraper.py:90), cut short if
an exception aborts the session after `k` items. -/
def sessionUrls (cfg : SourceConfig) (env : CrawlEnv) (visited0 : List String)
    (max_products : Nat) : List String :=
  let product_urls := discoverUrls max_products visited0 cfg.baseUrl env.pages []
  let to_process := product_urls.take max_products
  match env.sessionAbort with
  | none => to_process
  | some k => to_process.take k

/-- What one crawler run produces: the emitted records with their item
URLs, and the visited set persisted by `save_scraped_urls` at the end. -/
structure CrawlOutput where
  pairs : List (String × Record)
  visitedAfter : List String
deriving Repr, DecidableEq

/-- The `try` body plus its exception handler (agent_scraper.py:50-122):
discovery followed by extraction, starting from the loaded visited set. -/
def runSession (cfg : SourceConfig) (env : CrawlEnv) (visited0 : List String)
    (max_products : Nat) : CrawlOutput :=
  let st := extractAll env.outcome cfg.sourceName
      (sessionUrls cfg env visited0 max_products) [] visited0
  { pairs := st.1, visitedAfter := st.2 }

/-- One whole crawler invocation: load the visited file (outside the `try`:
a failure propagates), run the session (all failures absorbed), persist the
visited file (outside the `try`: a failure propagates), return the
records. -/
def scrapeSource (cfg : SourceConfig) (env : CrawlEnv) (max_products : Nat) :
    Except String CrawlOutput :=
  match env.loadResult with
  | .error e => .error e
  | .ok visited0 =>
      let out := runSession cfg env visited0 max_products
      match env.saveError with
      | some e => .error e
      | none => .ok out

/-- `scrape_breakout` (agent_scraper.py:47-125). -/
def scrape_breakout (env : CrawlEnv) (max_products : Nat) : Except String CrawlOutput :=
  scrapeSource breakoutConfig env max_products

/-- `scrape_rastah` (agent_scraper.py:127-205). -/
def scrape_rastah (env : CrawlEnv) (max_products : Nat) : Except String CrawlOutput :=
  scrapeSource rastahConfig env max_products

/-! ## Analysis (`agent_analysis.py`) -/

/-- One row of a product CSV as read by `csv.DictReader`
(agent_analysis.py:62-64): the columns written by `save_to_csv`. -/
structure ProductRow where
  product : String
  price : String
  description : String
deriving Repr, DecidableEq

/-- What the filesystem yields for one CSV path handed to
`load_csv_products`: the file may be missing (`FileNotFoundError`),
unreadable as CSV (`csv.Error`), or hold a list of rows. -/
inductive CsvContent where
  | missing
  | corrupt
  | rows (rs : List ProductRow)
deriving Repr, DecidableEq

/-- One CSV artifact: its display name and its content. -/
structure CsvFile where
  name : String
  content : CsvContent
deriving Repr, DecidableEq

/-- The `ValueError`s that `analyze_products` can raise, one constructor
per `raise` site in agent_analysis.py (`unexpected` is the wrapper at
lines 170-177 for non-`ValueError` exceptions). -/
inductive AnalysisError where
  | emptyFile (name : String)
  | fileNotFound (name : String)
  | csvReadFailed (name : String)
  | noData
  | notEnough (count : Nat)
  | capability (detail : String)
  | saveFailed (detail : String)
  | unexpected (detail : String)
deriving Repr, DecidableEq

/-- The message text of each `ValueError` (agent_analysis.py:66-90,
112-116, 136-140, 160-164, 171-175), with the line breaks of the Python
string literals collapsed to the single spaces Python produces. -/
def analysisErrorMessage : AnalysisError → String
  | .emptyFile name =>
      "The file " ++ name ++ " exists but contains no product data. " ++
      "This might indicate an issue with the scraping process. " ++
      "Try running the scraper again to collect fresh data."
  | .fileNotFound name =>
      "Could not find the file " ++ name ++ ". " ++
      "The data file might have been moved or deleted. " ++
      "Please run the scraper again to generate new data files."
  | .csvReadFailed name =>
      "Error reading " ++ name ++ ". " ++
      "The file appears to be corrupted or in an incorrect format. " ++
      "Try running the scraper again to generate fresh data files."
  | .noData =>
      "No product data found in any of the files. " ++
      "This might indicate an issue with the scraping process. " ++
      "Please try running the scraper again with different parameters."
  | .notEnough count =>
      "Not enough product data for meaningful analysis. " ++
      "Found only " ++ toString count ++ " product(s). " ++
      "Please run the scraper to collect more product data."
  | .capability detail =>
      "Error during analysis with the AI model. " ++
      "This might be due to API limits or connectivity issues. " ++
      "Technical details: " ++ detail
  | .saveFailed detail =>
      "Error saving analysis results to file. " ++
      "Please check if the data directory exists and is writable. " ++
      "Technical details: " ++ detail
  | .unexpected detail =>
      "An unexpected error occurred during analysis. " ++
      "This might be due to system issues or invalid data. " ++
      "Technical details: " ++ detail

/-- The `for file_path in file_paths` loop of `load_csv_products`
(agent_analysis.py:60-84), threading the `all_products` accumulator, then
the final emptiness check (lines 85-90). -/
def loadFiles : List CsvFile → List ProductRow → Except AnalysisError (List ProductRow)
  | [], acc => if acc.isEmpty then .error .noData else .ok acc
  | f :: rest, acc =>
      match f.content with
      | .missing => .error (.fileNotFound f.name)
      | .corrupt => .error (.csvReadFailed f.name)
      | .rows rs =>
          if rs.isEmpty then .error (.emptyFile f.name)
          else loadFiles rest (acc ++ rs)

/-- `load_csv_products` (agent_analysis.py:57-92). -/
def load_csv_products (files : List CsvFile) : Except AnalysisError (List ProductRow) :=
  loadFiles files []

/-- One bullet of the analysis prompt (agent_analysis.py:125). -/
def productLine (p : ProductRow) : String :=
  "- Name: " ++ p.product ++ "\n  Price: " ++ p.price ++
  "\n  Description: " ++ p.description ++ "\n"

/-- The full analysis prompt (agent_analysis.py:118-131). -/
def analysisPrompt (products : List ProductRow) : String :=
  "You are a market research analyst. Given the following product data from multiple e-commerce sites, " ++
  "perform a deep analysis including: internal product comparison, cross-site comparison, market research, and trend identification. " ++
  "Be thorough and analytical.\n\n" ++
  "Product Data:\n" ++
  String.join (products.map productLine) ++
  "\nYour analysis should include:\n" ++
  "- Comparison of products (features, price, uniqueness) across all sites\n" ++
  "- Identification of market trends\n" ++
  "- Insights about product positioning and opportunities\n" ++
  "- Any notable patterns or outliers\n" ++
  "Provide a detailed, structured report."

/-- Scan for the closing think tag: drop everything through the first
occurrence of the eight characters of the closing tag, returning the
remaining suffix; `none` when the tag does not occur. -/
def dropAfterClose : List Char → Option (List Char)
  | [] => none
  | c :: rest =>
      if List.isPrefixOf "</think>".data (c :: rest) then
        some ((c :: rest).drop "</think>".data.length)
      else dropAfterClose rest

/-- The think-block removal of `clean_llm_output` (agent_analysis.py:97):
each occurrence of an opening think tag is removed together with all text
through the next closing tag, scanning left to right as the non-greedy
regular expression does (an opening tag with no later closing tag stays;
the uppercase spellings admitted by the IGNORECASE flag are not modelled).
The fuel argument, called with the text length, only serves termination;
each step consumes at least one character, so it never runs out. -/
def stripThinkChars : Nat → List Char → List Char
  | 0, l => l
  | Nat.succ _, [] => []
  | Nat.succ fuel, c :: rest =>
      if List.isPrefixOf "<think>".data (c :: rest) then
        match dropAfterClose ((c :: rest).drop "<think>".data.length) with
        | some suffix => stripThinkChars fuel suffix
        | none => c :: stripThinkChars fuel rest
      else c :: stripThinkChars fuel rest

/-- The blank-line collapsing of `clean_llm_output` (agent_analysis.py:99):
a run of three or more newlines becomes exactly two, i.e. a newline already
preceded by two newlines is dropped.  `run` counts the newlines just
emitted. -/
def collapseNewlinesAux : Nat → List Char → List Char
  | _, [] => []
  | run, c :: rest =>
      if c = '\n' then
        if 2 ≤ run then collapseNewlinesAux run rest
        else c :: collapseNewlinesAux (run + 1) rest
      else c :: collapseNewlinesAux 0 rest

/-- `clean_llm_output` (agent_analysis.py:94-101): strip think blocks,
collapse runs of blank lines, trim surrounding whitespace. -/
def clean_llm_output (text : String) : String :=
  let noThink := String.mk (stripThinkChars text.data.length text.data)
  let collapsed := String.mk (collapseNewlinesAux 0 noThink.data)
  collapsed.trim

/-- External effects available to `analyze_products`: the text-generation
capability (`llm.invoke`; `.error` models a raised exception with its
message) and the outcome of writing `data/deep_analysis.txt`
(agent_analysis.py:153-158; `some e` models a raised exception). -/
structure AnalysisEnv where
  llm : String → Except String String
  saveError : Option String

/-- `analyze_products` (agent_analysis.py:103-177) on explicitly given
file paths (the pipeline always passes both per-source CSV paths): load
and validate the rows, reject fewer than two products, invoke the model
(wrapping a raised invocation error), clean the output, save it.  The
response-shape dispatch of lines 142-149 is modelled by the capability
returning its content string directly. -/
def analyze_products (env : AnalysisEnv) (files : List CsvFile) :
    Except AnalysisError String :=
  match load_csv_products files with
  | .error e => .error e
  | .ok products =>
      if products.length < 2 then .error (.notEnough products.length)
      else
        match env.llm (analysisPrompt products) with
        | .error e => .error (.capability e)
        | .ok response =>
            let result := clean_llm_output response
            match env.saveError with
            | some e => .error (.saveFailed e)
            | none => .ok result

/-- `run_deep_analysis` (agent_analysis.py:179-193) re-raises any error of
`analyze_products` as a `ValueError` whose message wraps the inner one;
the wrapped message text is `run_deep_analysis_message`. -/
def run_deep_analysis (env : AnalysisEnv) (files : List CsvFile) :
    Except AnalysisError String :=
  analyze_products env files

/-- The message of the `ValueError` raised by `run_deep_analysis`
(agent_analysis.py:188-191). -/
def run_deep_analysis_message (e : AnalysisError) : String :=
  "Failed to complete the analysis process. Error: " ++ analysisErrorMessage e

/-- Environment of the pipeline Analyze stage (langgraph_flow.py:84-118):
the content of `data/deep_analysis.txt` when it already exists (the skip
signal), the analysis effects, and the two per-source CSV artifacts passed
at line 103. -/
structure AnalysisStageEnv where
  existingAnalysis : Option String
  analysisEnv : AnalysisEnv
  files : List CsvFile

/-- `analysis_agent` (langgraph_flow.py:84-118).  Log entries are modelled
without their timestamps; `messages` entries keep only the content string.
On success the agent re-reads the artifact `run_deep_analysis` just wrote,
whose content is the returned analysis. -/
def analysis_agent (aenv : AnalysisStageEnv) (state : PipelineState) : PipelineState :=
  let state1 := { state with
      progress_status := "analyzing"
      progress_log := state.progress_log ++ ["Starting analysis step..."] }
  match aenv.existingAnalysis with
  | some content =>
      { state1 with
          analysis_results := some content
          progress_log := state1.progress_log ++ ["Analysis already exists. Skipping analysis."]
          messages := state1.messages ++ ["Skipped analysis. Loaded existing analysis results."] }
  | none =>
      match run_deep_analysis aenv.analysisEnv aenv.files with
      | .ok analysis =>
          { state1 with
              analysis_results := some analysis
              progress_log := state1.progress_log ++ ["Analysis complete."]
              messages := state1.messages ++ ["Completed deep analysis of product data"] }
      | .error e =>
          let msg := "Analysis agent error: " ++ run_deep_analysis_message e
          { state1 with
              error := some msg
              status := "failed"
              progress_log := state1.progress_log ++ [msg] }

/-! ## Q&A (`qa_chatbot.py`) and report generation (`report_generator.py`) -/

/-- Environment of the Q&A closure: the content of `data/deep_analysis.txt`
if present, and the text-generation capability. -/
structure QaEnv where
  analysisFile : Option String
  llm : String → Except String String

/-- The Q&A prompt (qa_chatbot.py:28-35). -/
def qaPrompt (context question : String) : String :=
  "You are a market research assistant. Use ONLY the following analysis as context to answer the user\x27s question. " ++
  "If the answer is not in the analysis, say \x27The analysis does not provide information on that.\x27\n" ++
  "Respond in a professional, direct, and confident manner.\n" ++
  "Analysis Context:\n" ++ context ++ "\n\n" ++
  "User Question: " ++ question ++ "\n" ++
  "Answer:"

/-- `qa_chatbot()` followed by one call of its `answer_question` closure
(qa_chatbot.py:9-52).  A missing analysis file yields the fixed string
answer; otherwise the capability is invoked, and a raised invocation error
propagates to the caller unwrapped (there is no handler around
`model.invoke`).  The response-shape dispatch of lines 39-48 is modelled by
the capability returning its content string. -/
def answer_question (env : QaEnv) (question : String) : Except String String :=
  match env.analysisFile with
  | none => .ok "No analysis report found. Please run the market analysis first."
  | some raw =>
      let context := raw.trim
      match env.llm (qaPrompt context question) with
      | .error e => .error e
      | .ok response => .ok response.trim

/-- Environment of `generate_report`: the content of
`data/deep_analysis.txt` if present, the text-generation capability, and
the outcome of writing `data/generated_report.txt`. -/
structure ReportEnv where
  analysisFile : Option String
  llm : String → Except String String
  saveError : Option String

/-- The report system prompt (report_generator.py:37-49). -/
def reportSystemPrompt : String :=
  "You are a senior business analyst. Based on the following market analysis, generate a comprehensive business report. " ++
  "The report should be well-structured, visually appealing, and suitable for presentation to executives. " ++
  "Use clear section headings, bullet points, and concise language. Include:\n" ++
  "- Executive Summary\n" ++
  "- Key Findings (with bullet points)\n" ++
  "- Market Trends\n" ++
  "- Product Positioning & Opportunities\n" ++
  "- Notable Patterns & Outliers\n" ++
  "- Actionable Recommendations\n" ++
  "- Conclusion\n" ++
  "Format the report for easy reading. Use bold for section titles and bullet points for lists."

/-- The full report prompt (report_generator.py:52). -/
def reportPrompt (analysis : String) : String :=
  reportSystemPrompt ++ "\n\nMarket Analysis Data:\n" ++ analysis ++
  "\n\nWrite the business report below:"

/-- `generate_report` (report_generator.py:8-80).  Every failure path is
caught inside the function and turned into a normally returned string — a
missing analysis file, a raised capability invocation (lines 67-69), and a
failed save (lines 76-78) all `return` an error-text string; the function
never raises. -/
def generate_report (env : ReportEnv) : String :=
  match env.analysisFile with
  | none => "Analysis file not found. Please run market analysis first."
  | some analysis =>
      match env.llm (reportPrompt analysis.trim) with
      | .error e => "Error generating report: " ++ e
      | .ok response =>
          let report := response.trim
          match env.saveError with
          | some e => "Error saving report: " ++ e
          | none => report

/-! ## Error classification and sample environments -/

/-- The data-insufficiency conditions of the error taxonomy: descriptive,
user-reportable failures raised before any model call when the available
product data is empty or too small — as opposed to capability, save or
wrapped internal errors. -/
def isInsufficientInput : AnalysisError → Bool
  | .emptyFile _ => true
  | .noData => true
  | .notEnough _ => true
  | _ => false

/-- Sample run for the C2 witness: the first listing link is already in
the persisted visited set, the second is fresh and extracts successfully. -/
def sampleC2Env : CrawlEnv :=
  { loadResult := .ok ["https://breakout.com.pk/a"]
    pages := [[some "/a", some "/b"]]
    outcome := fun _ _ => .success "t" "p" "d"
    sessionAbort := none
    saveError := none }

/-- Sample run for the C4 witness: the first discovered URL times out on
both attempts, the second extracts successfully. -/
def sampleC4Env : CrawlEnv :=
  { loadResult := .ok []
    pages := [[some "/a", some "/b"]]
    outcome := fun url _ =>
      if url = "https://breakout.com.pk/a" then .timeout
      else .success "t" "p" "d"
    sessionAbort := none
    saveError := none }

/-- Environment for the C5 counterexample: loading the visited-URL file
raises. -/
def loadFailEnv : CrawlEnv :=
  { loadResult := .error "disk failure"
    pages := []
    outcome := fun _ _ => .timeout
    sessionAbort := none
    saveError := none }

/-- Environment for the C5 witness: the whole browser session fails before
any item is processed, loading and saving succeed. -/
def sampleC5Env : CrawlEnv :=
  { loadResult := .ok ["https://breakout.com.pk/x"]
    pages := [[some "/a"]]
    outcome := fun _ _ => .success "t" "p" "d"
    sessionAbort := some 0
    saveError := none }

/-- Stage environment for the C7 witness: no pre-existing analysis
artifact; both per-source artifacts exist but hold one row in total. -/
def sampleC7Env : AnalysisStageEnv :=
  { existingAnalysis := none
    analysisEnv := { llm := fun _ => .ok "fine analysis", saveError := none }
    files := [{ name := "breakout_products.csv"
                content := .rows [{ product := "p1", price := "1", description := "d" }] },
              { name := "rastah_products.csv", content := .rows [] }] }

/-- Pipeline state entering the Analyze stage in the C7 witness. -/
def sampleC7State : PipelineState :=
  { question := "q", max_products := 10, headless := true
    scraped_data := some { breakout := [["p1", "1", "d", "Breakout"]], rastah := [] }
    analysis_results := none, report := none
    messages := [], progress_status := "scraping", progress_log := []
    status := "pending", error := none }

/-- Report environment for the C8 counterexample: the analysis artifact is
present and the capability call raises. -/
def reportLlmFailEnv : ReportEnv :=
  { analysisFile := some "analysis text"
    llm := fun _ => .error "boom"
    saveError := none }

/-- Analysis environment for the C8 witness: the capability call raises. -/
def sampleC8AnalysisEnv : AnalysisEnv :=
  { llm := fun _ => .error "boom", saveError := none }

/-- CSV artifacts for the C8 witness: two rows, enough for analysis to
reach the model call. -/
def sampleC8Files : List CsvFile :=
  [{ name := "breakout_products.csv"
     content := .rows [{ product := "p1", price := "1", description := "d" }] },
   { name := "rastah_products.csv"
     content := .rows [{ product := "p2", price := "2", description := "d" }] }]

/-- Q&A environment for the C8 witness: the capability call raises. -/
def sampleC8QaEnv : QaEnv :=
  { analysisFile := some "ctx", llm := fun _ => .error "boom" }

/-! ## Theorems for the coordinator and routing claims -/

/-- **C1.** For every requested total `N ≥ 1` and any pair of per-source
crawler outputs, the combined `data` of `scrape_all_products` is the
concatenation of the Breakout records followed by the Rastah records,
truncated to at most `N` records; in particular it never holds more than
`N` records. -/
theorem scrape_all_products_concat_truncate
    (breakout_data rastah_data : List Record) (N : Nat) (_hN : 1 ≤ N) :
    (scrape_all_products breakout_data rastah_data N).data
        = (breakout_data ++ rastah_data).take N ∧
    (scrape_all_products breakout_data rastah_data N).data.length ≤ N := by
  refine ⟨rfl, ?_⟩
  exact List.length_take_le N (breakout_data ++ rastah_data)

/-- Witness for C1 at a concrete input. -/
theorem scrape_all_products_concat_truncate_witness :
    1 ≤ 3 ∧
    ((scrape_all_products
        [⟨"a", "1", "d", "Breakout"⟩, ⟨"b", "2", "d", "Breakout"⟩]
        [⟨"c", "3", "d", "Rastah"⟩, ⟨"d", "4", "d", "Rastah"⟩] 3).data
      = (([⟨"a", "1", "d", "Breakout"⟩, ⟨"b", "2", "d", "Breakout"⟩] : List Record) ++
         ([⟨"c", "3", "d", "Rastah"⟩, ⟨"d", "4", "d", "Rastah"⟩] : List Record)).take 3 ∧
     (scrape_all_products
        [⟨"a", "1", "d", "Breakout"⟩, ⟨"b", "2", "d", "Breakout"⟩]
        [⟨"c", "3", "d", "Rastah"⟩, ⟨"d", "4", "d", "Rastah"⟩] 3).data.length ≤ 3) :=
  ⟨by decide,
   scrape_all_products_concat_truncate
     [⟨"a", "1", "d", "Breakout"⟩, ⟨"b", "2", "d", "Breakout"⟩]
     [⟨"c", "3", "d", "Rastah"⟩, ⟨"d", "4", "d", "Rastah"⟩] 3 (by decide)⟩

/-- **C3.** Whenever the `error` field holds a non-empty string, `route_next`
returns the terminal stage name `"end"`, regardless of every other field; so
once a stage sets `error` no subsequent stage is selected by the router. -/
theorem route_next_error_terminal
    (state : PipelineState) (e : String) (he : e ≠ "")
    (hs : state.error = some e) :
    route_next state = "end" := by
  have : truthyStr state.error = true := by
    rw [hs]
    simpa [truthyStr] using he
  simp [route_next, this]

/-- Witness for C3 at a concrete state. -/
theorem route_next_error_terminal_witness :
    ("boom" ≠ "") ∧
    route_next
      { question := "q", max_products := 10, headless := true
        scraped_data := none, analysis_results := none, report := none
        messages := [], progress_status := "scraping", progress_log := []
        status := "failed", error := some "boom" } = "end" :=
  ⟨by decide,
   route_next_error_terminal
     { question := "q", max_products := 10, headless := true
       scraped_data := none, analysis_results := none, report := none
       messages := [], progress_status := "scraping", progress_log := []
       status := "failed", error := some "boom" }
     "boom" (by decide) rfl⟩

/-- **C9.** For every pipeline state, `route_next` returns one of exactly
`"end"`, `"scraper"`, `"analyzer"`, `"report"`; it has no branch returning
the Q&A stage name, so `"qa"` is never selected by the router. -/
theorem route_next_range (state : PipelineState) :
    (route_next state = "end" ∨ route_next state = "scraper" ∨
     route_next state = "analyzer" ∨ route_next state = "report") ∧
    route_next state ≠ "qa" := by
  unfold route_next
  constructor
  · split
    · exact Or.inl rfl
    · split
      · exact Or.inr (Or.inl rfl)
      · split
        · exact Or.inr (Or.inr (Or.inl rfl))
        · split
          · exact Or.inr (Or.inr (Or.inr rfl))
          · exact Or.inl rfl
  · split
    · decide
    · split
      · decide
      · split
        · decide
        · split
          · decide
          · decide

/-- **C6.** The coordinator splits the requested total by ceiling division:
`per_source` is the least `q` with `total ≤ 2 * q` (the ceiling of
`total / 2`), and at `total = 7` the quota is `4` for each source, not 3. -/
theorem per_source_ceiling (total : Nat) :
    total ≤ 2 * per_source total ∧
    2 * per_source total ≤ total + 1 ∧
    per_source 7 = 4 := by
  refine ⟨?_, ?_, by decide⟩
  · unfold per_source
    omega
  · unfold per_source
    omega

/-- **C10.** The pipeline Scrape stage splits by floor division,
`max_products // 2` per source, so for every odd total the combined
requested quota is `max_products - 1`; the ceiling split of the standalone
coordinator strictly exceeds it on odd totals. -/
theorem scraper_agent_floor_split (m : Nat) (hodd : m % 2 = 1) :
    scraper_agent_per_source m = m / 2 ∧
    scraper_agent_per_source m + scraper_agent_per_source m = m - 1 ∧
    scraper_agent_per_source m + 1 = per_source m := by
  refine ⟨rfl, ?_, ?_⟩
  · unfold scraper_agent_per_source
    omega
  · unfold scraper_agent_per_source per_source
    omega

/-- Witness for C10 at the odd total 7: each source is asked for 3,
combined 6 = 7 - 1, while the coordinator would ask for 4 each. -/
theorem scraper_agent_floor_split_witness :
    (7 % 2 = 1) ∧
    (scraper_agent_per_source 7 = 7 / 2 ∧
     scraper_agent_per_source 7 + scraper_agent_per_source 7 = 7 - 1 ∧
     scraper_agent_per_source 7 + 1 = per_source 7) :=
  ⟨by decide, scraper_agent_floor_split 7 (by decide)⟩

/-! ## Crawler lemmas -/

/-- Every URL the inner link loop adds to `product_urls` is outside the
loaded visited set. -/
theorem mem_collectLinks {max_products : Nat} {scraped_urls : List String}
    {base : String} {links : List (Option String)} {acc : List String} {u : String}
    (hu : u ∈ collectLinks max_products scraped_urls base links acc) :
    u ∈ acc ∨ u ∉ scraped_urls := by
  induction links generalizing acc with
  | nil => exact Or.inl hu
  | cons link rest ih =>
    cases link with
    | none => exact ih (by simpa [collectLinks] using hu)
    | some href =>
      simp only [collectLinks] at hu
      split at hu
      · exact ih hu
      · split at hu
        · rename_i hfresh
          split at hu
          · rcases List.mem_append.1 hu with h | h
            · exact Or.inl h
            · simp only [List.mem_singleton] at h
              subst h
              exact Or.inr hfresh.2
          · rcases ih hu with h | h
            · rcases List.mem_append.1 h with h | h
              · exact Or.inl h
              · simp only [List.mem_singleton] at h
                subst h
                exact Or.inr hfresh.2
            · exact Or.inr h
        · exact ih hu

/-- Every URL the pagination loop discovers is outside the loaded visited
set. -/
theorem mem_discoverUrls {max_products : Nat} {scraped_urls : List String}
    {base : String} {pages : List (List (Option String))} {acc : List String}
    {u : String}
    (hu : u ∈ discoverUrls max_products scraped_urls base pages acc) :
    u ∈ acc ∨ u ∉ scraped_urls := by
  induction pages generalizing acc with
  | nil => exact Or.inl hu
  | cons page rest ih =>
    simp only [discoverUrls] at hu
    split at hu
    · split at hu
      · exact mem_collectLinks hu
      · rcases ih hu with h | h
        · exact mem_collectLinks h
        · exact Or.inr h
    · exact Or.inl hu

/-- The inner link loop keeps `product_urls` duplicate-free. -/
theorem nodup_collectLinks {max_products : Nat} {scraped_urls : List String}
    {base : String} {links : List (Option String)} {acc : List String}
    (hacc : acc.Nodup) :
    (collectLinks max_products scraped_urls base links acc).Nodup := by
  induction links generalizing acc with
  | nil => exact hacc
  | cons link rest ih =>
    cases link with
    | none => simpa [collectLinks] using ih hacc
    | some href =>
      simp only [collectLinks]
      split
      · exact ih hacc
      · split
        · rename_i hfresh
          have happ : (acc ++ [normalizeUrl base href]).Nodup := by
            rw [List.nodup_append]
            refine ⟨hacc, List.nodup_singleton _, ?_⟩
            intro a ha hb
            simp only [List.mem_singleton] at hb
            subst hb
            exact hfresh.1 ha
          split
          · exact happ
          · exact ih happ
        · exact ih hacc

/-- The pagination loop keeps `product_urls` duplicate-free. -/
theorem nodup_discoverUrls {max_products : Nat} {scraped_urls : List String}
    {base : String} {pages : List (List (Option String))} {acc : List String}
    (hacc : acc.Nodup) :
    (discoverUrls max_products scraped_urls base pages acc).Nodup := by
  induction pages generalizing acc with
  | nil => exact hacc
  | cons page rest ih =>
    simp only [discoverUrls]
    split
    · split
      · exact nodup_collectLinks hacc
      · exact ih (nodup_collectLinks hacc)
    · exact hacc

/-- The URLs handed to the extraction loop are duplicate-free. -/
theorem nodup_sessionUrls (cfg : SourceConfig) (env : CrawlEnv)
    (visited0 : List String) (max_products : Nat) :
    (sessionUrls cfg env visited0 max_products).Nodup := by
  have hdisc : (discoverUrls max_products visited0 cfg.baseUrl env.pages []).Nodup :=
    nodup_discoverUrls List.nodup_nil
  have htake := hdisc.sublist (List.take_sublist max_products _)
  unfold sessionUrls
  cases env.sessionAbort with
  | none => exact htake
  | some k => exact htake.sublist (List.take_sublist k _)

/-- Every URL handed to the extraction loop is outside the loaded visited
set. -/
theorem sessionUrls_not_visited {cfg : SourceConfig} {env : CrawlEnv}
    {visited0 : List String} {max_products : Nat} {u : String}
    (hu : u ∈ sessionUrls cfg env visited0 max_products) :
    u ∉ visited0 := by
  unfold sessionUrls at hu
  have hu' : u ∈ (discoverUrls max_products visited0 cfg.baseUrl env.pages []).take max_products := by
    cases habort : env.sessionAbort with
    | none => rw [habort] at hu; exact hu
    | some k => rw [habort] at hu; exact List.mem_of_mem_take hu
  have hd : u ∈ discoverUrls max_products visited0 cfg.baseUrl env.pages [] :=
    List.mem_of_mem_take hu'
  rcases mem_discoverUrls hd with h | h
  · exact absurd h (List.not_mem_nil u)
  · exact h

/-- Every pair the extraction loop emits was in the accumulator already or
has its URL among the processed URLs. -/
theorem mem_extractAll_pairs {outcome : String → Nat → AttemptResult}
    {source_name : String} {urls : List String} {pairs : List (String × Record)}
    {visited : List String} {x : String} {r : Record}
    (hx : (x, r) ∈ (extractAll outcome source_name urls pairs visited).1) :
    (x, r) ∈ pairs ∨ x ∈ urls := by
  induction urls generalizing pairs visited with
  | nil => exact Or.inl hx
  | cons url rest ih =>
    simp only [extractAll] at hx
    cases htry : tryExtract outcome source_name url retry_budget 0 with
    | some rec =>
      rw [htry] at hx
      rcases ih hx with h | h
      · rcases List.mem_append.1 h with h | h
        · exact Or.inl h
        · simp only [List.mem_singleton, Prod.mk.injEq] at h
          exact Or.inr (by simp [h.1])
      · exact Or.inr (List.mem_cons_of_mem _ h)
    | none =>
      rw [htry] at hx
      rcases ih hx with h | h
      · exact Or.inl h
      · exact Or.inr (List.mem_cons_of_mem _ h)

/-- Every URL in the visited set after the extraction loop was there
before or is among the processed URLs. -/
theorem mem_extractAll_visited {outcome : String → Nat → AttemptResult}
    {source_name : String} {urls : List String} {pairs : List (String × Record)}
    {visited : List String} {x : String}
    (hx : x ∈ (extractAll outcome source_name urls pairs visited).2) :
    x ∈ visited ∨ x ∈ urls := by
  induction urls generalizing pairs visited with
  | nil => exact Or.inl hx
  | cons url rest ih =>
    simp only [extractAll] at hx
    cases htry : tryExtract outcome source_name url retry_budget 0 with
    | some rec =>
      rw [htry] at hx
      rcases ih hx with h | h
      · unfold insertUrl at h
        split at h
        · exact Or.inl h
        · rcases List.mem_append.1 h with h | h
          · exact Or.inl h
          · simp only [List.mem_singleton] at h
            exact Or.inr (by simp [h])
      · exact Or.inr (List.mem_cons_of_mem _ h)
    | none =>
      rw [htry] at hx
      rcases ih hx with h | h
      · exact Or.inl h
      · exact Or.inr (List.mem_cons_of_mem _ h)

/-- A URL whose bounded retry yields nothing contributes nothing to the
extraction loop: the loop behaves as if the URL were not in its input. -/
theorem extractAll_skip {outcome : String → Nat → AttemptResult}
    {source_name u : String} (l₁ l₂ : List String)
    (pairs : List (String × Record)) (visited : List String)
    (hfail : tryExtract outcome source_name u retry_budget 0 = none) :
    extractAll outcome source_name (l₁ ++ u :: l₂) pairs visited
      = extractAll outcome source_name (l₁ ++ l₂) pairs visited := by
  induction l₁ generalizing pairs visited with
  | nil =>
    simp only [List.nil_append, extractAll, hfail]
  | cons a t ih =>
    simp only [List.cons_append, extractAll]
    cases htry : tryExtract outcome source_name a retry_budget 0 with
    | some rec => exact ih _ _
    | none => exact ih _ _

/-- When the visited file loads and saves cleanly, `scrapeSource` returns
the session result. -/
theorem scrapeSource_eq_ok (cfg : SourceConfig) (env : CrawlEnv)
    (max_products : Nat) (visited0 : List String)
    (hload : env.loadResult = .ok visited0)
    (hsave : env.saveError = none) :
    scrapeSource cfg env max_products
      = .ok (runSession cfg env visited0 max_products) := by
  unfold scrapeSource
  rw [hload]
  simp only [hsave]

/-- Inversion: a successful `scrapeSource` run means the save succeeded and
the output is the session result. -/
theorem scrapeSource_ok_inv {cfg : SourceConfig} {env : CrawlEnv}
    {max_products : Nat} {visited0 : List String} {out : CrawlOutput}
    (hload : env.loadResult = .ok visited0)
    (hok : scrapeSource cfg env max_products = .ok out) :
    out = runSession cfg env visited0 max_products := by
  cases hsave : env.saveError with
  | some e =>
    have herr : scrapeSource cfg env max_products = .error e := by
      unfold scrapeSource
      rw [hload]
      simp only [hsave]
    rw [herr] at hok
    exact absurd hok (by simp)
  | none =>
    rw [scrapeSource_eq_ok cfg env max_products visited0 hload hsave] at hok
    exact (Except.ok.inj hok).symm

/-! ## Crawler claim theorems -/

/-- **C2.** For every source configuration and crawler run, a URL present
in the persisted visited set loaded at crawl start is never re-emitted as
a new Record in that run: the discovery loop excludes URLs already in the
visited set, so no emitted pair carries such a URL. -/
theorem visited_url_never_reemitted
    (cfg : SourceConfig) (env : CrawlEnv) (max_products : Nat)
    (visited0 : List String) (out : CrawlOutput)
    (hload : env.loadResult = .ok visited0)
    (hok : scrapeSource cfg env max_products = .ok out)
    (url : String) (r : Record) (hmem : (url, r) ∈ out.pairs) :
    url ∉ visited0 := by
  have hout := scrapeSource_ok_inv hload hok
  have hmem' : (url, r) ∈ (extractAll env.outcome cfg.sourceName
      (sessionUrls cfg env visited0 max_products) [] visited0).1 := by
    rw [hout] at hmem
    exact hmem
  rcases mem_extractAll_pairs hmem' with h | h
  · exact absurd h (List.not_mem_nil _)
  · exact sessionUrls_not_visited h

/-- Witness for C2 on `sampleC2Env`: the fresh URL is emitted and is not in
the loaded visited set. -/
theorem visited_url_never_reemitted_witness :
    sampleC2Env.loadResult = .ok ["https://breakout.com.pk/a"] ∧
    scrapeSource breakoutConfig sampleC2Env 5 =
      .ok { pairs := [("https://breakout.com.pk/b",
                       { title := "t", price := "p", desc := "d", source := "Breakout" })]
            visitedAfter := ["https://breakout.com.pk/a", "https://breakout.com.pk/b"] } ∧
    ("https://breakout.com.pk/b",
      ({ title := "t", price := "p", desc := "d", source := "Breakout" } : Record)) ∈
      ({ pairs := [("https://breakout.com.pk/b",
                    { title := "t", price := "p", desc := "d", source := "Breakout" })]
         visitedAfter := ["https://breakout.com.pk/a", "https://breakout.com.pk/b"] } : CrawlOutput).pairs ∧
    "https://breakout.com.pk/b" ∉ ["https://breakout.com.pk/a"] :=
  ⟨rfl, rfl, by decide,
   visited_url_never_reemitted breakoutConfig sampleC2Env 5
     ["https://breakout.com.pk/a"]
     { pairs := [("https://breakout.com.pk/b",
                  { title := "t", price := "p", desc := "d", source := "Breakout" })]
       visitedAfter := ["https://breakout.com.pk/a", "https://breakout.com.pk/b"] }
     rfl rfl
     "https://breakout.com.pk/b"
     { title := "t", price := "p", desc := "d", source := "Breakout" } (by decide)⟩

/-- **C4.** A discovered URL whose extraction exhausts the retry budget of
2 attempts (both attempts time out) yields no record in the output, is
absent from the visited set persisted at crawl end, and the crawler
processes the remaining discovered URLs exactly as if the failed URL were
not present. -/
theorem retry_exhausted_url_skipped
    (cfg : SourceConfig) (env : CrawlEnv) (max_products : Nat)
    (visited0 : List String) (out : CrawlOutput) (u : String)
    (l₁ l₂ : List String)
    (hload : env.loadResult = .ok visited0)
    (hok : scrapeSource cfg env max_products = .ok out)
    (hsplit : sessionUrls cfg env visited0 max_products = l₁ ++ u :: l₂)
    (h0 : env.outcome u 0 = .timeout)
    (h1 : env.outcome u 1 = .timeout) :
    (∀ r : Record, (u, r) ∉ out.pairs) ∧
    u ∉ out.visitedAfter ∧
    out.pairs = (extractAll env.outcome cfg.sourceName (l₁ ++ l₂) [] visited0).1 ∧
    out.visitedAfter = (extractAll env.outcome cfg.sourceName (l₁ ++ l₂) [] visited0).2 := by
  have hfail : tryExtract env.outcome cfg.sourceName u retry_budget 0 = none := by
    simp only [retry_budget, tryExtract, h0, h1]
  have hu_not_visited : u ∉ visited0 :=
    sessionUrls_not_visited (by rw [hsplit]; exact List.mem_append_right l₁ (List.mem_cons_self u l₂))
  have hnodup : (l₁ ++ u :: l₂).Nodup := by
    rw [← hsplit]; exact nodup_sessionUrls cfg env visited0 max_products
  have hu1 : u ∉ l₁ := by
    intro hin
    rcases List.nodup_append.1 hnodup with ⟨-, -, hdisj⟩
    exact hdisj hin (List.mem_cons_self u l₂)
  have hu2 : u ∉ l₂ := by
    rcases List.nodup_append.1 hnodup with ⟨-, hcons, -⟩
    exact (List.nodup_cons.1 hcons).1
  have hu12 : u ∉ l₁ ++ l₂ := by
    intro hin
    rcases List.mem_append.1 hin with h | h
    · exact hu1 h
    · exact hu2 h
  have hout := scrapeSource_ok_inv hload hok
  have hskip := extractAll_skip l₁ l₂ ([] : List (String × Record)) visited0 hfail
  have hpairs : out.pairs = (extractAll env.outcome cfg.sourceName (l₁ ++ l₂) [] visited0).1 := by
    rw [hout]
    show (extractAll env.outcome cfg.sourceName
        (sessionUrls cfg env visited0 max_products) [] visited0).1 = _
    rw [hsplit, hskip]
  have hvisited : out.visitedAfter = (extractAll env.outcome cfg.sourceName (l₁ ++ l₂) [] visited0).2 := by
    rw [hout]
    show (extractAll env.outcome cfg.sourceName
        (sessionUrls cfg env visited0 max_products) [] visited0).2 = _
    rw [hsplit, hskip]
  refine ⟨?_, ?_, hpairs, hvisited⟩
  · intro r hr
    rw [hpairs] at hr
    rcases mem_extractAll_pairs hr with h | h
    · exact List.not_mem_nil _ h
    · exact hu12 h
  · intro hv
    rw [hvisited] at hv
    rcases mem_extractAll_visited hv with h | h
    · exact hu_not_visited h
    · exact hu12 h

/-- Witness for C4 on `sampleC4Env`: the exhausted URL is absent from the
output and the persisted set, while the remaining URL is still processed. -/
theorem retry_exhausted_url_skipped_witness :
    sampleC4Env.loadResult = .ok [] ∧
    scrapeSource breakoutConfig sampleC4Env 2 =
      .ok { pairs := [("https://breakout.com.pk/b",
                       { title := "t", price := "p", desc := "d", source := "Breakout" })]
            visitedAfter := ["https://breakout.com.pk/b"] } ∧
    sessionUrls breakoutConfig sampleC4Env [] 2 =
      [] ++ "https://breakout.com.pk/a" :: ["https://breakout.com.pk/b"] ∧
    sampleC4Env.outcome "https://breakout.com.pk/a" 0 = .timeout ∧
    sampleC4Env.outcome "https://breakout.com.pk/a" 1 = .timeout ∧
    ("https://breakout.com.pk/a",
      ({ title := "t", price := "p", desc := "d", source := "Breakout" } : Record)) ∉
      ({ pairs := [("https://breakout.com.pk/b",
                    { title := "t", price := "p", desc := "d", source := "Breakout" })]
         visitedAfter := ["https://breakout.com.pk/b"] } : CrawlOutput).pairs ∧
    "https://breakout.com.pk/a" ∉
      ({ pairs := [("https://breakout.com.pk/b",
                    { title := "t", price := "p", desc := "d", source := "Breakout" })]
         visitedAfter := ["https://breakout.com.pk/b"] } : CrawlOutput).visitedAfter := by
  refine ⟨rfl, rfl, rfl, rfl, rfl, ?_, ?_⟩
  · exact (retry_exhausted_url_skipped breakoutConfig sampleC4Env 2 []
      { pairs := [("https://breakout.com.pk/b",
                   { title := "t", price := "p", desc := "d", source := "Breakout" })]
        visitedAfter := ["https://breakout.com.pk/b"] }
      "https://breakout.com.pk/a" [] ["https://breakout.com.pk/b"]
      rfl rfl rfl rfl rfl).1 _
  · exact (retry_exhausted_url_skipped breakoutConfig sampleC4Env 2 []
      { pairs := [("https://breakout.com.pk/b",
                   { title := "t", price := "p", desc := "d", source := "Breakout" })]
        visitedAfter := ["https://breakout.com.pk/b"] }
      "https://breakout.com.pk/a" [] ["https://breakout.com.pk/b"]
      rfl rfl rfl rfl rfl).2.1

/-- **C5 counterexample.** The claim says a crawler invocation never
raises, covering loading and persisting the visited-URL file.  But
`load_scraped_urls` is called before the `try` block
(agent_scraper.py:48), so a failure there propagates: with a failing load,
`scrape_breakout` yields an error rather than a record list. -/
theorem scrape_breakout_raises_on_load_failure :
    scrape_breakout loadFailEnv 5 = .error "disk failure" := rfl

/-- **C5 amended.** Provided loading and persisting the visited-URL file
succeed, a crawler invocation never yields an error — every failure inside
the browser session is absorbed — and a session that fails before any item
is processed returns an empty record list with the visited set unchanged. -/
theorem scrapeSource_absorbs_session_failures
    (cfg : SourceConfig) (env : CrawlEnv) (max_products : Nat)
    (visited0 : List String)
    (hload : env.loadResult = .ok visited0)
    (hsave : env.saveError = none) :
    scrapeSource cfg env max_products
      = .ok (runSession cfg env visited0 max_products) ∧
    (env.sessionAbort = some 0 →
      scrapeSource cfg env max_products
        = .ok { pairs := [], visitedAfter := visited0 }) := by
  have h1 := scrapeSource_eq_ok cfg env max_products visited0 hload hsave
  refine ⟨h1, fun habort => ?_⟩
  rw [h1]
  have : runSession cfg env visited0 max_products
      = { pairs := [], visitedAfter := visited0 } := by
    unfold runSession sessionUrls
    rw [habort]
    simp [extractAll]
  rw [this]

/-- Witness for the amended C5 on `sampleC5Env`. -/
theorem scrapeSource_absorbs_session_failures_witness :
    sampleC5Env.loadResult = .ok ["https://breakout.com.pk/x"] ∧
    sampleC5Env.saveError = none ∧
    (scrapeSource breakoutConfig sampleC5Env 3
        = .ok (runSession breakoutConfig sampleC5Env ["https://breakout.com.pk/x"] 3) ∧
     (sampleC5Env.sessionAbort = some 0 →
       scrapeSource breakoutConfig sampleC5Env 3
         = .ok { pairs := [], visitedAfter := ["https://breakout.com.pk/x"] })) :=
  ⟨rfl, rfl,
   scrapeSource_absorbs_session_failures breakoutConfig sampleC5Env 3
     ["https://breakout.com.pk/x"] rfl rfl⟩

/-! ## Analysis and capability claim theorems -/

/-- Appending to a non-empty string never yields the empty string. -/
theorem string_append_ne_empty (s t : String) (hs : s ≠ "") : s ++ t ≠ "" := by
  intro h
  apply hs
  have hd := congrArg String.data h
  have h2 : s.data ++ t.data = [] := by simpa using hd
  have h3 : s.data = [] := (List.append_eq_nil.mp h2).1
  cases s
  simp_all

/-- **C7.** When the Analyze stage runs (no pre-existing artifact) and the
two per-source artifacts exist but hold fewer than 2 product records in
total, the analysis fails with a descriptive insufficient-data condition —
never a capability, save or wrapped internal error — the stage sets
`status = "failed"` with a non-empty `error`, the `report` field stays
absent, and the router sends the pipeline to the terminal stage, so the
Report stage never executes. -/
theorem analysis_insufficient_data_fails
    (aenv : AnalysisStageEnv) (state : PipelineState)
    (n₁ n₂ : String) (r₁ r₂ : List ProductRow)
    (hfiles : aenv.files = [{ name := n₁, content := .rows r₁ },
                            { name := n₂, content := .rows r₂ }])
    (hlt : r₁.length + r₂.length < 2)
    (hskip : aenv.existingAnalysis = none)
    (hreport : state.report = none) :
    (∃ e, run_deep_analysis aenv.analysisEnv aenv.files = .error e ∧
        isInsufficientInput e = true) ∧
    (analysis_agent aenv state).status = "failed" ∧
    truthyStr (analysis_agent aenv state).error = true ∧
    (analysis_agent aenv state).report = none ∧
    route_next (analysis_agent aenv state) = "end" := by
  have hmain : ∃ e, run_deep_analysis aenv.analysisEnv aenv.files = .error e ∧
      isInsufficientInput e = true := by
    rw [hfiles]
    cases r₁ with
    | nil =>
      exact ⟨.emptyFile n₁,
        by simp [run_deep_analysis, analyze_products, load_csv_products, loadFiles], rfl⟩
    | cons x xs =>
      cases r₂ with
      | nil =>
        exact ⟨.emptyFile n₂,
          by simp [run_deep_analysis, analyze_products, load_csv_products, loadFiles], rfl⟩
      | cons y ys =>
        exfalso
        simp only [List.length_cons] at hlt
        omega
  obtain ⟨e, herr, hins⟩ := hmain
  have hmsg : ("Analysis agent error: " ++ run_deep_analysis_message e) ≠ "" :=
    string_append_ne_empty _ _ (by decide)
  have htruthy : truthyStr (analysis_agent aenv state).error = true := by
    simp [analysis_agent, hskip, herr, truthyStr, hmsg]
  refine ⟨⟨e, herr, hins⟩, ?_, htruthy, ?_, ?_⟩
  · simp [analysis_agent, hskip, herr]
  · simp [analysis_agent, hskip, herr, hreport]
  · simp [route_next, htruthy]

/-- Witness for C7 on `sampleC7Env` / `sampleC7State`: one Breakout row,
an empty Rastah artifact. -/
theorem analysis_insufficient_data_fails_witness :
    sampleC7Env.files = [{ name := "breakout_products.csv"
                           content := .rows [{ product := "p1", price := "1", description := "d" }] },
                         { name := "rastah_products.csv", content := .rows [] }] ∧
    ([{ product := "p1", price := "1", description := "d" }] : List ProductRow).length +
      ([] : List ProductRow).length < 2 ∧
    sampleC7Env.existingAnalysis = none ∧
    sampleC7State.report = none ∧
    ((∃ e, run_deep_analysis sampleC7Env.analysisEnv sampleC7Env.files = .error e ∧
        isInsufficientInput e = true) ∧
     (analysis_agent sampleC7Env sampleC7State).status = "failed" ∧
     truthyStr (analysis_agent sampleC7Env sampleC7State).error = true ∧
     (analysis_agent sampleC7Env sampleC7State).report = none ∧
     route_next (analysis_agent sampleC7Env sampleC7State) = "end") :=
  ⟨rfl, by decide, rfl, rfl,
   analysis_insufficient_data_fails sampleC7Env sampleC7State
     "breakout_products.csv" "rastah_products.csv"
     [{ product := "p1", price := "1", description := "d" }] []
     rfl (by decide) rfl rfl⟩

/-- **C8 counterexample.** The claim says every capability call site
surfaces an LLM invocation failure as a raised, stage-fatal condition,
never swallowed into a normal-looking return value.  But `generate_report`
catches the invocation error and returns the string
"Error generating report: ..." as its ordinary return value
(report_generator.py:67-69) — nothing is raised. -/
theorem generate_report_swallows_capability_failure :
    generate_report reportLlmFailEnv = "Error generating report: boom" := rfl

/-- **C8 amended.** A capability failure is surfaced as a raised condition
wrapped with a descriptive message at the Analyze call site; at the Answer
call site it is raised but propagates unwrapped; at the Report call site it
is caught and converted into a normally returned error string rather than
a raised condition. -/
theorem capability_failure_surfacing
    (e : String)
    (aenv : AnalysisEnv) (files : List CsvFile) (products : List ProductRow)
    (hllm : aenv.llm = fun _ => .error e)
    (hload : load_csv_products files = .ok products)
    (hn : 2 ≤ products.length)
    (qenv : QaEnv) (context question : String)
    (hqfile : qenv.analysisFile = some context)
    (hqllm : qenv.llm = fun _ => .error e)
    (renv : ReportEnv) (analysis : String)
    (hrfile : renv.analysisFile = some analysis)
    (hrllm : renv.llm = fun _ => .error e) :
    analyze_products aenv files = .error (.capability e) ∧
    answer_question qenv question = .error e ∧
    generate_report renv = "Error generating report: " ++ e := by
  refine ⟨?_, ?_, ?_⟩
  · simp only [analyze_products, hload]
    rw [if_neg (by omega)]
    rw [hllm]
  · simp only [answer_question, hqfile]
    rw [hqllm]
  · simp only [generate_report, hrfile]
    rw [hrllm]

/-- Witness for the amended C8 at a concrete failing capability. -/
theorem capability_failure_surfacing_witness :
    sampleC8AnalysisEnv.llm = (fun _ => .error "boom") ∧
    load_csv_products sampleC8Files =
      .ok [{ product := "p1", price := "1", description := "d" },
           { product := "p2", price := "2", description := "d" }] ∧
    2 ≤ ([{ product := "p1", price := "1", description := "d" },
          { product := "p2", price := "2", description := "d" }] : List ProductRow).length ∧
    sampleC8QaEnv.analysisFile = some "ctx" ∧
    sampleC8QaEnv.llm = (fun _ => .error "boom") ∧
    reportLlmFailEnv.analysisFile = some "analysis text" ∧
    reportLlmFailEnv.llm = (fun _ => .error "boom") ∧
    (analyze_products sampleC8AnalysisEnv sampleC8Files = .error (.capability "boom") ∧
     answer_question sampleC8QaEnv "why" = .error "boom" ∧
     generate_report reportLlmFailEnv = "Error generating report: " ++ "boom") :=
  ⟨rfl, rfl, by decide, rfl, rfl, rfl, rfl,
   capability_failure_surfacing "boom" sampleC8AnalysisEnv sampleC8Files
     [{ product := "p1", price := "1", description := "d" },
      { product := "p2", price := "2", description := "d" }]
     rfl rfl (by decide)
     sampleC8QaEnv "ctx" "why" rfl rfl
     reportLlmFailEnv "analysis text" rfl rfl⟩

end AgenticIntelligence
